import Mathlib

/-!
Verification of the public-access detection logic of an S3 CloudTrail
alerting function (`lambda_function.py`).

The source is dynamically typed Python over parsed JSON.  We embed the
payloads as a `Json` value type and the Python operations the source uses
with their Python semantics:

* `d[k]` subscript: `Json.getE`, raising `KeyError`/`TypeError` as an
  `Except.error`;
* `'k' in d`: `pyInStr`, key membership on dicts, element membership on
  lists, substring test on strings, `TypeError` on `None`;
* `x == 'lit'`: `Json.eqStr`, string equality when `x` is a string and
  `False` otherwise (Python `==` across types);
* `if not isinstance(x, list): x = [x]`: `asPyList`;
* iteration `for x in v`: `Json.asIter`.

Fallible code is modelled in `Except String`; the error string records the
kind of Python exception raised.  The two external collaborators are
abstracted: the S3 log fetch is a parameter `fetch : String → String →
Json` of `lambda_handler`, and SNS publication is modelled by returning
the list of composed alert messages.
-/

/-- Prefix test on character lists: `startsWithL s pat` is true when `pat`
is an initial segment of `s`. -/
def startsWithL : List Char → List Char → Bool
  | _, [] => true
  | [], _ :: _ => false
  | a :: s, b :: p => a == b && startsWithL s p

/-- Substring occurrence on character lists: does `pat` occur contiguously
in `s`?  Models Python's `pat in s` for strings. -/
def containsL (pat : List Char) : List Char → Bool
  | [] => startsWithL [] pat
  | a :: s => startsWithL (a :: s) pat || containsL pat s

/-- Python `pat in s` on strings: substring containment. -/
def strContains (s pat : String) : Bool :=
  containsL pat.data s.data

/-- JSON values as delivered by `json.loads`, restricted to the shapes the
program manipulates (strings, arrays, objects, and `null` standing for any
non-subscriptable scalar). -/
inductive Json where
  | str : String → Json
  | arr : List Json → Json
  | obj : List (String × Json) → Json
  | null : Json

/-- Python `x == 'lit'`: string equality when `x` is a string, `False` for
every other runtime type (Python equality across types is `False`, not an
error). -/
def Json.eqStr : Json → String → Bool
  | .str a, b => a == b
  | _, _ => false

/-- Total field lookup on an object; `none` on non-objects. -/
def Json.get? : Json → String → Option Json
  | .obj fs, k => fs.lookup k
  | _, _ => none

/-- Python subscript `d[k]` with a string key: field lookup on a dict,
`KeyError` when the key is absent, `TypeError` on any other type. -/
def Json.getE : Json → String → Except String Json
  | .obj fs, k =>
      match fs.lookup k with
      | some v => .ok v
      | none => .error ("KeyError: " ++ k)
  | .arr _, k => .error ("TypeError: list indices must be integers, not str: " ++ k)
  | .str _, k => .error ("TypeError: string indices must be integers, not str: " ++ k)
  | .null, k => .error ("TypeError: NoneType is not subscriptable: " ++ k)

/-- Python membership `k in v` with a string left operand: key membership
on dicts, element membership on lists, substring test on strings,
`TypeError` on `None`. -/
def pyInStr (k : String) : Json → Except String Bool
  | .obj fs => .ok (fs.lookup k).isSome
  | .arr xs => .ok (xs.any (fun x => x.eqStr k))
  | .str s => .ok (strContains s k)
  | .null => .error "TypeError: argument of type NoneType is not iterable"

/-- `if not isinstance(x, list): x = [x]` — normalize a scalar to a
one-element list. -/
def asPyList : Json → List Json
  | .arr xs => xs
  | j => [j]

/-- Python iteration `for x in v`: elements of a list, keys of a dict,
one-character strings of a string, `TypeError` on `None`. -/
def Json.asIter : Json → Except String (List Json)
  | .arr xs => .ok xs
  | .obj fs => .ok (fs.map (fun p => Json.str p.1))
  | .str s => .ok (s.data.map (fun c => Json.str (String.mk [c])))
  | .null => .error "TypeError: NoneType is not iterable"

/-- Coercion to a Python `str` as required by `+` concatenation,
`str.join` and `str.replace` arguments: `TypeError` on non-strings. -/
def Json.asStr : Json → Except String String
  | .str s => .ok s
  | _ => .error "TypeError: expected str"

/-- If `pat` is an initial segment of the list, return the remainder. -/
def stripLead : List Char → List Char → Option (List Char)
  | [], s => some s
  | _ :: _, [] => none
  | b :: p, a :: s => if a == b then stripLead p s else none

/-- Fuel-driven core of Python `s.replace(pat, rep)`: scan left to right,
replacing non-overlapping occurrences; each step consumes at least one
character, so `s.length` fuel suffices. -/
def replaceFuel (pat rep : List Char) : Nat → List Char → List Char
  | _, [] => []
  | 0, s => s
  | n + 1, a :: s =>
      match stripLead pat (a :: s) with
      | some rest => rep ++ replaceFuel pat rep n rest
      | none => a :: replaceFuel pat rep n s

/-- Python `s.replace(pat, rep)` for a non-empty pattern (the source only
replaces fixed non-empty placeholders). -/
def pyReplace (s pat rep : String) : String :=
  if pat.data = [] then s
  else String.mk (replaceFuel pat.data rep.data s.data.length s.data)

/-- The alert message template (`sns_message` in the source). -/
def sns_message : String :=
  "User \x7b\x7buser\x7d\x7d via \x7b\x7binvoke\x7d\x7d call has just \x7b\x7bbucket_or_object\x7d\x7d with \x7b\x7boperations\x7d\x7d public access"

/-- The fixed alert subject (`sns_subject` in the source). -/
def sns_subject : String := "Public S3 bucket/object alert"

/-- The AllUsers marker the source greps grant values for
(`'/global/AllUsers'`). -/
def allUsersMarker : String := "/global/AllUsers"

/-- The canned-ACL scan loop of `handle_create` (source lines 76-80):
for each header value, `public-read` or `public-read-write` sets
`public_read`, `public-read-write` sets `public_write`; flags are never
reset. -/
def scanCanned : List Json → Bool × Bool → Bool × Bool
  | [], s => s
  | h :: t, (r, w) =>
      scanCanned t
        (r || (h.eqStr "public-read" || h.eqStr "public-read-write"),
         w || h.eqStr "public-read-write")

/-- One grant-header check of `handle_create` (source lines 83-94): the
header field is consulted only if present, and then tested for the
AllUsers marker with Python `in`. -/
def grantHeaderCheck (acl : Json) (field : String) : Except String Bool := do
  let present ← pyInStr field acl
  if present then do
    let v ← acl.getE field
    pyInStr allUsersMarker v
  else pure false

/-- The grant-decision part of `handle_create` (source lines 67-94): the
canned-ACL block followed by the four grant-header checks, returning
`(public_read, public_write)`. -/
def handleCreateDecision (record : Json) : Except String (Bool × Bool) := do
  let rp ← record.getE "requestParameters"
  let hasAcl ← pyInStr "x-amz-acl" rp
  let s1 ←
    if hasAcl then do
      let aclHeaders ← rp.getE "x-amz-acl"
      pure (scanCanned (asPyList aclHeaders) (false, false))
    else pure ((false, false) : Bool × Bool)
  let hasGrants ← pyInStr "accessControlList" rp
  if hasGrants then do
    let acl ← rp.getE "accessControlList"
    let r1 ← grantHeaderCheck acl "x-amz-grant-read"
    let r2 ← grantHeaderCheck acl "x-amz-grant-read-acp"
    let w1 ← grantHeaderCheck acl "x-amz-grant-write"
    let w2 ← grantHeaderCheck acl "x-amz-grant-write-acp"
    pure (s1.1 || r1 || r2, s1.2 || w1 || w2)
  else pure s1

/-- One iteration of the grant loop of `handle_change` (source lines
109-115): a grant whose `Grantee` has a `URI` containing the AllUsers
marker has its `Permission` inspected (`KeyError` when absent); `READ`/
`READ_ACP` sets the read flag, else `WRITE`/`WRITE_ACP` sets the write
flag. -/
def grantStep (g : Json) (s : Bool × Bool) : Except String (Bool × Bool) := do
  let hasGrantee ← pyInStr "Grantee" g
  if hasGrantee then do
    let grantee ← g.getE "Grantee"
    let hasURI ← pyInStr "URI" grantee
    let isAllUsers ←
      if hasURI then do
        let uri ← grantee.getE "URI"
        pyInStr allUsersMarker uri
      else pure false
    if isAllUsers then do
      let perm ← g.getE "Permission"
      if perm.eqStr "READ" || perm.eqStr "READ_ACP" then
        pure (true, s.2)
      else if perm.eqStr "WRITE" || perm.eqStr "WRITE_ACP" then
        pure (s.1, true)
      else pure s
    else pure s
  else pure s

/-- The grant loop of `handle_change`, folding `grantStep` over the
(normalized) grant list. -/
def grantScan : List Json → Bool × Bool → Except String (Bool × Bool)
  | [], s => .ok s
  | g :: t, s => do
      let s' ← grantStep g s
      grantScan t s'

/-- The grant-decision part of `handle_change` (source lines 100-115):
when `requestParameters` holds an `AccessControlPolicy`, fetch its
`AccessControlList.Grant` (hard subscripts: `KeyError` when absent),
normalize to a list and scan. -/
def handleChangeDecision (record : Json) : Except String (Bool × Bool) := do
  let rp ← record.getE "requestParameters"
  let hasPolicy ← pyInStr "AccessControlPolicy" rp
  if hasPolicy then do
    let policy ← rp.getE "AccessControlPolicy"
    let aclist ← policy.getE "AccessControlList"
    let grant ← aclist.getE "Grant"
    grantScan (asPyList grant) (false, false)
  else pure ((false, false) : Bool × Bool)

/-- The scan loop of `get_object_arn` (source lines 147-149): return the
`ARN` of the first resource whose `type` is `AWS::S3::Object`. -/
def findArnLoop : List Json → Except String (Option Json)
  | [] => .ok none
  | r :: t => do
      let ty ← r.getE "type"
      if ty.eqStr "AWS::S3::Object" then do
        let arn ← r.getE "ARN"
        pure (some arn)
      else findArnLoop t

/-- `get_object_arn` (source lines 145-150): first-match scan of the
record's `resources` list; `None` when the field is absent or no
object-typed entry exists. -/
def get_object_arn (record : Json) : Except String (Option Json) := do
  let hasRes ← pyInStr "resources" record
  if hasRes then do
    let rs ← record.getE "resources"
    let l ← rs.asIter
    findArnLoop l
  else pure none

/-- `get_invoke_form` (source lines 153-159): `Console` for the sign-in or
console user agent, `Lambda` for the lambda user agent, `API` otherwise. -/
def get_invoke_form (record : Json) : Except String String := do
  let ua ← record.getE "userAgent"
  if ua.eqStr "signin.amazonaws.com" || ua.eqStr "console.amazonaws.com" then
    pure "Console"
  else if ua.eqStr "lambda.amazonaws.com" then
    pure "Lambda"
  else pure "API"

/-- Python `sep.join(xs)`: the elements interleaved with the separator. -/
def pyJoin (sep : String) : List String → String
  | [] => ""
  | [a] => a
  | a :: b :: t => a ++ sep ++ pyJoin sep (b :: t)

/-- `get_public_access` (source lines 162-168): join the true flags,
`READ` before `WRITE`, with `" and "`. -/
def get_public_access (public_write public_read : Bool) : String :=
  pyJoin " and "
    ((if public_read then ["READ"] else []) ++ (if public_write then ["WRITE"] else []))

/-- `get_resource_access` (source lines 171-186): verb `created` for
`CreateBucket`/`PutObject` and `changed` otherwise, then the object ARN
with `at bucket` when present, else `bucket`, joined with spaces. -/
def get_resource_access (event_name bucket_name : String) (object_arn : Option String) : String :=
  pyJoin " "
    ((if event_name == "CreateBucket" || event_name == "PutObject" then ["created"]
      else ["changed"]) ++
     (match object_arn with
      | some arn => [arn, "at bucket", bucket_name]
      | none => ["bucket", bucket_name]))

/-- The values interpolated into the message must be Python strings for
`str.replace`/`str.join`; convert an optional ARN, failing on non-strings. -/
def optArnStr : Option Json → Except String (Option String)
  | none => .ok none
  | some a => do
      let s ← a.asStr
      pure (some s)

/-- The message composition of `publish_alert` (source lines 121-133):
look up the user name, invoke form, bucket name and object ARN (hard
subscripts raise), then substitute the four template placeholders. -/
def publish_alert_message (record : Json) (event_name : String)
    (public_write public_read : Bool) : Except String String := do
  let user_name ← (← record.getE "userIdentity").getE "userName"
  let invoke_form ← get_invoke_form record
  let bucket_name ← (← record.getE "requestParameters").getE "bucketName"
  let object_arn ← get_object_arn record
  let user ← user_name.asStr
  let bucket ← bucket_name.asStr
  let arn ← optArnStr object_arn
  pure (pyReplace (pyReplace (pyReplace (pyReplace sns_message
      "\x7b\x7buser\x7d\x7d" user)
      "\x7b\x7binvoke\x7d\x7d" invoke_form)
      "\x7b\x7boperations\x7d\x7d" (get_public_access public_write public_read))
      "\x7b\x7bbucket_or_object\x7d\x7d" (get_resource_access event_name bucket arn))

/-- `handle_create` (source lines 67-97): compute the creation-time grant
decision and, when a flag is set, compose (and publish) the alert.  The
published messages are returned as a list. -/
def handle_create (record : Json) (event_name : String) : Except String (List String) := do
  let s ← handleCreateDecision record
  if s.1 || s.2 then do
    let msg ← publish_alert_message record event_name s.2 s.1
    pure [msg]
  else pure []

/-- `handle_change` (source lines 100-118): compute the ACL-change grant
decision and, when a flag is set, compose (and publish) the alert. -/
def handle_change (record : Json) (event_name : String) : Except String (List String) := do
  let s ← handleChangeDecision record
  if s.1 || s.2 then do
    let msg ← publish_alert_message record event_name s.2 s.1
    pure [msg]
  else pure []

/-- The per-record dispatch of `lambda_handler` (source lines 54-59):
records from `s3.amazonaws.com` carrying a `requestParameters` key are
routed by event name; everything else is skipped. -/
def dispatchRecord (record : Json) : Except String (List String) := do
  let src ← record.getE "eventSource"
  if src.eqStr "s3.amazonaws.com" then do
    let hasRP ← pyInStr "requestParameters" record
    if hasRP then do
      let en ← record.getE "eventName"
      match en with
      | .str s =>
          if s == "CreateBucket" || s == "PutObject" then handle_create record s
          else if s == "PutBucketAcl" || s == "PutObjectAcl" then handle_change record s
          else pure []
      | _ => pure []
    else pure []
  else pure []

/-- The record loop of `lambda_handler` (source lines 53-59), concatenating
the alerts produced for each record. -/
def forRecords : List Json → Except String (List String)
  | [] => .ok []
  | r :: t => do
      let a ← dispatchRecord r
      let rest ← forRecords t
      pure (a ++ rest)

/-- Processing of one fetched trail log (source lines 52-59): when the
parsed JSON has a `Records` member, dispatch every record in it. -/
def processTrail (trail_json : Json) : Except String (List String) := do
  let hasRecs ← pyInStr "Records" trail_json
  if hasRecs then do
    let recs ← trail_json.getE "Records"
    let l ← recs.asIter
    forRecords l
  else pure []

/-- The notification loop of `lambda_handler` (source lines 43-45): each
iteration overwrites `bucket` and `key` with the current item's reference;
the accumulator holds the values left by the last completed iteration. -/
def refLoop : List Json → Option (Json × Json) → Except String (Option (Json × Json))
  | [], acc => .ok acc
  | it :: t, _ => do
      let s3a ← it.getE "s3"
      let b ← (← s3a.getE "bucket").getE "name"
      let s3b ← it.getE "s3"
      let k ← (← s3b.getE "object").getE "key"
      refLoop t (some (b, k))

/-- Extraction of the fetched object reference (source lines 43-47): run
the notification loop; an empty sequence leaves `bucket` unbound
(`NameError` at the `print` on line 47), and the string concatenation
there requires both values to be strings. -/
def extractLastRef (event : Json) : Except String (String × String) := do
  let records ← event.getE "Records"
  let items ← records.asIter
  let acc ← refLoop items none
  match acc with
  | none => .error "NameError: name bucket is not defined"
  | some (b, k) => do
      let bs ← b.asStr
      let ks ← k.asStr
      pure (bs, ks)

/-- Observable outcome of one invocation: the (bucket, key) references
fetched from S3, and the alert messages published to SNS, in order. -/
structure RunResult where
  fetched : List (String × String)
  alerts : List String
deriving DecidableEq

/-- `lambda_handler` (source lines 42-59), with the S3 fetch abstracted as
`fetch` (get_object + gunzip + json.loads of the referenced log object). -/
def lambda_handler (fetch : String → String → Json) (event : Json) :
    Except String RunResult := do
  let bk ← extractLastRef event
  let trail_json := fetch bk.1 bk.2
  let alerts ← processTrail trail_json
  pure ⟨[(bk.1, bk.2)], alerts⟩

/-! Spec-side characterizations used to state the claims. -/

/-- Spec-side: a canned-ACL value that grants public read. -/
def cannedRead (h : Json) : Bool :=
  h.eqStr "public-read" || h.eqStr "public-read-write"

/-- Spec-side: a canned-ACL value that grants public write. -/
def cannedWrite (h : Json) : Bool :=
  h.eqStr "public-read-write"

/-- Spec-side: the grant's `Grantee` carries a `URI` string containing the
AllUsers marker. -/
def granteeAllUsers (g : Json) : Bool :=
  match g.get? "Grantee" with
  | some grantee =>
      match grantee.get? "URI" with
      | some (.str uri) => strContains uri allUsersMarker
      | _ => false
  | none => false

/-- Spec-side: the grant's `Permission` equals the given string. -/
def permIs (g : Json) (p : String) : Bool :=
  match g.get? "Permission" with
  | some v => v.eqStr p
  | none => false

/-- Spec-side: this grant contributes public read (AllUsers URI and
`READ`/`READ_ACP` permission). -/
def grantRead (g : Json) : Bool :=
  granteeAllUsers g && (permIs g "READ" || permIs g "READ_ACP")

/-- Spec-side: this grant contributes public write (AllUsers URI and
`WRITE`/`WRITE_ACP` permission). -/
def grantWrite (g : Json) : Bool :=
  granteeAllUsers g && (permIs g "WRITE" || permIs g "WRITE_ACP")

/-- Shape condition under which the grant loop cannot raise: the grant is
an object, its `Grantee` (when present) is an object whose `URI` (when
present) is a string, and a grant naming AllUsers carries a `Permission`
field. -/
def wfGrant : Json → Bool
  | .obj fs =>
      match (Json.obj fs).get? "Grantee" with
      | none => true
      | some (.obj gfs) =>
          match (Json.obj gfs).get? "URI" with
          | none => true
          | some (.str uri) =>
              !(strContains uri allUsersMarker) || ((Json.obj fs).get? "Permission").isSome
          | some _ => false
      | some _ => false
  | _ => false

/-- Spec-side: the grant-header field, when present, is a string containing
the AllUsers marker. -/
def hdrAllUsers (acl : Json) (field : String) : Bool :=
  match acl.get? field with
  | some (.str s) => strContains s allUsersMarker
  | _ => false

/-- Shape condition on one grant-header field: absent or a string. -/
def wfHdr (acl : Json) (field : String) : Bool :=
  match acl.get? field with
  | none => true
  | some (.str _) => true
  | some _ => false

/-- Shape condition under which the resource scan cannot raise: an object
with a `type` field, carrying an `ARN` when the type marks an object. -/
def wfResource : Json → Bool
  | .obj fs =>
      match (Json.obj fs).get? "type" with
      | some t =>
          if t.eqStr "AWS::S3::Object" then ((Json.obj fs).get? "ARN").isSome else true
      | none => false
  | _ => false

/-- Spec-side: first-match scan for the ARN of an object-typed resource. -/
def firstObjectArn : List Json → Option Json
  | [] => none
  | r :: t =>
      match r.get? "type" with
      | some ty => if ty.eqStr "AWS::S3::Object" then r.get? "ARN" else firstObjectArn t
      | none => firstObjectArn t

/-- Spec-side: the (bucket name, object key) reference carried by one item
of the outer notification sequence. -/
def itemRefSpec (it : Json) : Option (Json × Json) := do
  let s3 ← it.get? "s3"
  let b ← (← s3.get? "bucket").get? "name"
  let k ← (← s3.get? "object").get? "key"
  pure (b, k)

/-! Concrete example payloads, used to instantiate the theorems. -/

/-- A grant-list URI naming the AllUsers group. -/
def exUriAll : Json := .str "http://acs.amazonaws.com/groups/global/AllUsers"

/-- A grant giving `READ` to AllUsers. -/
def exGrantReadAll : Json :=
  .obj [("Grantee", .obj [("URI", exUriAll)]), ("Permission", .str "READ")]

/-- A grant giving `WRITE` to a non-AllUsers (canonical-id) principal. -/
def exGrantWriteOther : Json :=
  .obj [("Grantee", .obj [("ID", .str "abcdef0123456789")]), ("Permission", .str "WRITE")]

/-- A grant naming AllUsers but carrying no `Permission` field. -/
def exGrantNoPerm : Json := .obj [("Grantee", .obj [("URI", exUriAll)])]

/-- The two-grant list `[READ to AllUsers, WRITE to a non-AllUsers
principal]`. -/
def exGrantsTwo : Json := .arr [exGrantReadAll, exGrantWriteOther]

/-- An `AccessControlPolicy` holding the two-grant list. -/
def exPolicyTwo : Json :=
  .obj [("AccessControlList", .obj [("Grant", exGrantsTwo)])]

/-- An ACL-change record whose grant list is `[READ to AllUsers, WRITE to a
non-AllUsers principal]`. -/
def exRecTwoGrants : Json :=
  .obj [("requestParameters", .obj [("AccessControlPolicy", exPolicyTwo)])]

/-- An ACL-change record whose single grant names AllUsers but has no
`Permission` field. -/
def exRecNoPerm : Json :=
  .obj [("requestParameters",
    .obj [("AccessControlPolicy",
      .obj [("AccessControlList", .obj [("Grant", exGrantNoPerm)])])])]

/-- A creation record with canned ACL `"public-read"` (single string). -/
def exRecCanned : Json :=
  .obj [("requestParameters", .obj [("x-amz-acl", .str "public-read")])]

/-- A creation record with canned ACL `"public-read-write"`. -/
def exRecCannedRW : Json :=
  .obj [("requestParameters", .obj [("x-amz-acl", .str "public-read-write")])]

/-- A creation record whose canned ACL is the one-element array
`["private"]`. -/
def exRecPrivate : Json :=
  .obj [("requestParameters", .obj [("x-amz-acl", .arr [.str "private"])])]

/-- A creation record whose grant-header mapping carries only a
`x-amz-grant-read-acp` header naming AllUsers. -/
def exRecHdrAcp : Json :=
  .obj [("requestParameters",
    .obj [("accessControlList",
      .obj [("x-amz-grant-read-acp",
        .str "uri=http://acs.amazonaws.com/groups/global/AllUsers")])])]

/-- A record whose `requestParameters` key is present but `null` — the
shape CloudTrail uses for operations without parameters. -/
def exRecNullRP : Json :=
  .obj [("eventSource", .str "s3.amazonaws.com"),
        ("eventName", .str "CreateBucket"),
        ("requestParameters", .null)]

/-- A record with an empty `requestParameters` mapping. -/
def exRecEmptyRP : Json := .obj [("requestParameters", .obj [])]

/-- The request parameters of the complete `PutBucketAcl` record. -/
def exRPAcl : Json :=
  .obj [("bucketName", .str "mybucket"),
        ("AccessControlPolicy",
          .obj [("AccessControlList", .obj [("Grant", exGrantReadAll)])])]

/-- A complete `PutBucketAcl` record granting `READ` to AllUsers. -/
def exRecAcl : Json :=
  .obj [("eventSource", .str "s3.amazonaws.com"),
        ("eventName", .str "PutBucketAcl"),
        ("userIdentity", .obj [("userName", .str "alice")]),
        ("userAgent", .str "console.amazonaws.com"),
        ("requestParameters", exRPAcl)]

/-- An S3 record whose event name is not one of the four handled ones. -/
def exRecSkip : Json :=
  .obj [("eventSource", .str "s3.amazonaws.com"),
        ("eventName", .str "GetObject"),
        ("requestParameters", .obj [])]

/-- A `resources` list with a bucket entry before an object entry. -/
def exRecResources : Json :=
  .obj [("resources",
    .arr [.obj [("type", .str "AWS::S3::Bucket"), ("ARN", .str "arn:aws:s3:::b")],
          .obj [("type", .str "AWS::S3::Object"), ("ARN", .str "arn:aws:s3:::b/key")]])]

/-- A record carrying only a non-service user agent. -/
def exRecAgent : Json := .obj [("userAgent", .str "curl/7.68.0")]

/-- A trail log containing the single `PutBucketAcl` record. -/
def exTrail : Json := .obj [("Records", .arr [exRecAcl])]

/-- A notification whose outer sequence has two items referencing two
different log objects. -/
def exNotifTwo : Json :=
  .obj [("Records",
    .arr [.obj [("s3", .obj [("bucket", .obj [("name", .str "logbucket1")]),
                             ("object", .obj [("key", .str "key1")])])],
          .obj [("s3", .obj [("bucket", .obj [("name", .str "logbucket2")]),
                             ("object", .obj [("key", .str "key2")])])]])]

/-- A fetch collaborator serving `exTrail` only for the second reference. -/
def exFetch : String → String → Json := fun b k =>
  if b == "logbucket2" && k == "key2" then exTrail else .null

/-! Basic reduction lemmas for the `Except` embedding. -/

@[simp] theorem exbind_ok {α β : Type} (a : α) (f : α → Except String β) :
    (Except.ok a >>= f) = f a := rfl

@[simp] theorem exbind_error {α β : Type} (e : String) (f : α → Except String β) :
    ((Except.error e : Except String α) >>= f) = Except.error e := rfl

@[simp] theorem expure_eq {α : Type} (a : α) :
    (pure a : Except String α) = Except.ok a := rfl

@[simp] theorem exmap_ok {α β : Type} (f : α → β) (a : α) :
    (Except.ok a : Except String α).map f = Except.ok (f a) := rfl

@[simp] theorem exmap_error {α β : Type} (f : α → β) (e : String) :
    (Except.error e : Except String α).map f = Except.error e := rfl

theorem getE_of_get? {j : Json} {k : String} {v : Json} (h : j.get? k = some v) :
    j.getE k = .ok v := by
  cases j <;> simp [Json.get?] at h
  simp [Json.getE, h]

theorem get?_of_getE {j : Json} {k : String} {v : Json} (h : j.getE k = .ok v) :
    j.get? k = some v := by
  cases j with
  | obj fs =>
      cases hl : fs.lookup k with
      | some w => simp [Json.getE, hl] at h; simp [Json.get?, hl, h]
      | none => simp [Json.getE, hl] at h
  | str s => simp [Json.getE] at h
  | arr xs => simp [Json.getE] at h
  | null => simp [Json.getE] at h

theorem obj_of_getE {j : Json} {k : String} {v : Json} (h : j.getE k = .ok v) :
    ∃ fs, j = Json.obj fs := by
  cases j with
  | obj fs => exact ⟨fs, rfl⟩
  | str s => simp [Json.getE] at h
  | arr xs => simp [Json.getE] at h
  | null => simp [Json.getE] at h

theorem eqStr_true {j : Json} {a : String} (h : j.eqStr a = true) : j = .str a := by
  cases j with
  | str s => simp [Json.eqStr] at h; simp [h]
  | arr xs => simp [Json.eqStr] at h
  | obj fs => simp [Json.eqStr] at h
  | null => simp [Json.eqStr] at h

theorem eqStr_false {j : Json} {a : String} (h : j ≠ .str a) : j.eqStr a = false := by
  cases hb : j.eqStr a
  · rfl
  · exact absurd (eqStr_true hb) h

/-- The canned-ACL loop computes the OR of the per-value contributions. -/
theorem scanCanned_eq (l : List Json) (r w : Bool) :
    scanCanned l (r, w) = (r || l.any cannedRead, w || l.any cannedWrite) := by
  induction l generalizing r w with
  | nil => simp [scanCanned]
  | cons h t ih => simp [scanCanned, ih, cannedRead, cannedWrite, Bool.or_assoc]

/-- C3: for a Rule A record whose `requestParameters` carries the
canned-ACL field (and no grant-header mapping), the decision is the scan
of the normalized value list: any `public-read` sets the read flag, any
`public-read-write` sets both. -/
theorem c3_rule_a_canned_acl
    (record : Json) (rpf : List (String × Json)) (v : Json)
    (hrp : record.getE "requestParameters" = .ok (.obj rpf))
    (hv : rpf.lookup "x-amz-acl" = some v)
    (hng : rpf.lookup "accessControlList" = none) :
    handleCreateDecision record =
      .ok ((asPyList v).any cannedRead, (asPyList v).any cannedWrite) := by
  simp only [handleCreateDecision]
  rw [hrp]
  simp [pyInStr, Json.getE, hv, hng, scanCanned_eq]

/-- Witness for C3: the single string `"public-read"` yields `(true,
false)`, `"public-read-write"` yields `(true, true)`, and the one-element
array `["private"]` yields `(false, false)`. -/
theorem c3_rule_a_canned_acl_witness :
    handleCreateDecision exRecCanned = .ok (true, false) ∧
    handleCreateDecision exRecCannedRW = .ok (true, true) ∧
    handleCreateDecision exRecPrivate = .ok (false, false) := by
  refine ⟨?_, ?_, ?_⟩
  · rw [c3_rule_a_canned_acl exRecCanned [("x-amz-acl", .str "public-read")]
      (.str "public-read") rfl rfl rfl]
    rfl
  · rw [c3_rule_a_canned_acl exRecCannedRW [("x-amz-acl", .str "public-read-write")]
      (.str "public-read-write") rfl rfl rfl]
    rfl
  · rw [c3_rule_a_canned_acl exRecPrivate [("x-amz-acl", .arr [.str "private"])]
      (.arr [.str "private"]) rfl rfl rfl]
    rfl

/-- C7: the operations string joins the true flags with `" and "`, read
before write — `READ`, `WRITE`, or `READ and WRITE` — and is never empty
when at least one flag is true. -/
theorem c7_operations_string (public_write public_read : Bool) :
    (public_read = true → public_write = false →
      get_public_access public_write public_read = "READ") ∧
    (public_read = false → public_write = true →
      get_public_access public_write public_read = "WRITE") ∧
    (public_read = true → public_write = true →
      get_public_access public_write public_read = "READ and WRITE") ∧
    ((public_read || public_write) = true →
      get_public_access public_write public_read ≠ "") := by
  cases public_read <;> cases public_write <;> decide

/-- Witness for C7 at the both-flags-true decision. -/
theorem c7_operations_string_witness :
    get_public_access true true = "READ and WRITE" ∧ get_public_access true true ≠ "" :=
  ⟨(c7_operations_string true true).2.2.1 rfl rfl, (c7_operations_string true true).2.2.2 rfl⟩

/-- C9: the invoke form is `Console` exactly for the sign-in/console user
agents, `Lambda` exactly for the lambda user agent, and `API` otherwise;
it is always one of the three. -/
theorem c9_invoke_form (record ua : Json)
    (h : record.getE "userAgent" = .ok ua) :
    get_invoke_form record =
      .ok (if ua.eqStr "signin.amazonaws.com" || ua.eqStr "console.amazonaws.com" then "Console"
           else if ua.eqStr "lambda.amazonaws.com" then "Lambda"
           else "API") ∧
    (get_invoke_form record = .ok "Console" ∨ get_invoke_form record = .ok "Lambda" ∨
     get_invoke_form record = .ok "API") := by
  have key : get_invoke_form record =
      .ok (if ua.eqStr "signin.amazonaws.com" || ua.eqStr "console.amazonaws.com" then "Console"
           else if ua.eqStr "lambda.amazonaws.com" then "Lambda"
           else "API") := by
    simp only [get_invoke_form]
    rw [h]
    simp only [exbind_ok]
    cases hc : (ua.eqStr "signin.amazonaws.com" || ua.eqStr "console.amazonaws.com") <;>
      cases hl : ua.eqStr "lambda.amazonaws.com" <;> simp [hc, hl]
  refine ⟨key, ?_⟩
  rw [key]
  cases hc : (ua.eqStr "signin.amazonaws.com" || ua.eqStr "console.amazonaws.com") <;>
    cases hl : ua.eqStr "lambda.amazonaws.com" <;> simp [hc, hl]

/-- Witness for C9: a plain SDK user agent maps to `API`, the sign-in
service identifier to `Console`. -/
theorem c9_invoke_form_witness :
    get_invoke_form exRecAgent = .ok "API" ∧
    get_invoke_form (Json.obj [("userAgent", Json.str "signin.amazonaws.com")]) = .ok "Console" := by
  constructor
  · rw [(c9_invoke_form exRecAgent (.str "curl/7.68.0") rfl).1]; rfl
  · rw [(c9_invoke_form (Json.obj [("userAgent", Json.str "signin.amazonaws.com")])
      (.str "signin.amazonaws.com") rfl).1]
    rfl

/-- A grant-header field that is absent or a string is checked without
raising, and contributes exactly its AllUsers-marker test. -/
theorem grantHeaderCheck_wf (aclf : List (String × Json)) (field : String)
    (h : wfHdr (.obj aclf) field = true) :
    grantHeaderCheck (.obj aclf) field = .ok (hdrAllUsers (.obj aclf) field) := by
  cases hl : aclf.lookup field with
  | none => simp [grantHeaderCheck, pyInStr, hl, hdrAllUsers, Json.get?]
  | some v =>
      cases v with
      | str s => simp [grantHeaderCheck, pyInStr, hl, Json.getE, hdrAllUsers, Json.get?]
      | arr xs => simp [wfHdr, Json.get?, hl] at h
      | obj fs => simp [wfHdr, Json.get?, hl] at h
      | null => simp [wfHdr, Json.get?, hl] at h

/-- A present grant-header string containing the AllUsers marker makes its
check raise the flag. -/
theorem grantHeaderCheck_marker (aclf : List (String × Json)) (field s : String)
    (hl : aclf.lookup field = some (.str s)) (hm : strContains s allUsersMarker = true) :
    grantHeaderCheck (.obj aclf) field = .ok true := by
  simp [grantHeaderCheck, pyInStr, hl, Json.getE, hm]

/-- C4: for a Rule A record whose `requestParameters` carries the
grant-header mapping, the four header fields are checked independently —
`grant-read`/`grant-read-acp` strings containing the AllUsers marker set
the read flag, `grant-write`/`grant-write-acp` the write flag, an absent
field contributes nothing — and a `grant-read-acp` header containing the
marker forces the read flag regardless of every other field. -/
theorem c4_rule_a_grant_headers (record : Json) (aclf : List (String × Json)) :
    (∀ (rpf : List (String × Json)),
      record.getE "requestParameters" = .ok (.obj rpf) →
      rpf.lookup "x-amz-acl" = none →
      rpf.lookup "accessControlList" = some (.obj aclf) →
      wfHdr (.obj aclf) "x-amz-grant-read" = true →
      wfHdr (.obj aclf) "x-amz-grant-read-acp" = true →
      wfHdr (.obj aclf) "x-amz-grant-write" = true →
      wfHdr (.obj aclf) "x-amz-grant-write-acp" = true →
      handleCreateDecision record = .ok
        (hdrAllUsers (.obj aclf) "x-amz-grant-read" ||
           hdrAllUsers (.obj aclf) "x-amz-grant-read-acp",
         hdrAllUsers (.obj aclf) "x-amz-grant-write" ||
           hdrAllUsers (.obj aclf) "x-amz-grant-write-acp")) ∧
    (∀ (rp : Json) (s : String) (pr pw : Bool),
      record.getE "requestParameters" = .ok rp →
      rp.get? "accessControlList" = some (.obj aclf) →
      aclf.lookup "x-amz-grant-read-acp" = some (.str s) →
      strContains s allUsersMarker = true →
      handleCreateDecision record = .ok (pr, pw) →
      pr = true) := by
  constructor
  · intro rpf hrp hacl hgl w1 w2 w3 w4
    simp only [handleCreateDecision]
    rw [hrp]
    simp [pyInStr, Json.getE, hacl, hgl, grantHeaderCheck_wf _ _ w1,
      grantHeaderCheck_wf _ _ w2, grantHeaderCheck_wf _ _ w3, grantHeaderCheck_wf _ _ w4]
  · intro rp s pr pw hrp hacl hs hm hdec
    cases rp with
    | obj rpf =>
        simp only [Json.get?] at hacl
        simp only [handleCreateDecision] at hdec
        rw [hrp] at hdec
        simp only [exbind_ok, pyInStr] at hdec
        cases hx : rpf.lookup "x-amz-acl" with
        | none =>
            simp only [hx, Option.isSome_none, Bool.false_eq_true, if_false, expure_eq,
              exbind_ok, hacl, Option.isSome_some, if_true, Json.getE] at hdec
            cases h1 : grantHeaderCheck (.obj aclf) "x-amz-grant-read" with
            | error e => simp [h1] at hdec
            | ok b1 =>
                rw [h1, grantHeaderCheck_marker _ _ _ hs hm] at hdec
                cases h3 : grantHeaderCheck (.obj aclf) "x-amz-grant-write" with
                | error e => simp [h1, h3] at hdec
                | ok b3 =>
                    rw [h3] at hdec
                    cases h4 : grantHeaderCheck (.obj aclf) "x-amz-grant-write-acp" with
                    | error e => simp [h4] at hdec
                    | ok b4 =>
                        rw [h4] at hdec
                        simp only [exbind_ok, expure_eq, Except.ok.injEq, Prod.mk.injEq] at hdec
                        have h5 := hdec.1
                        rw [Bool.or_true] at h5
                        exact h5.symm
        | some v =>
            simp only [hx, Option.isSome_some, if_true, Json.getE, exbind_ok, expure_eq,
              hacl] at hdec
            cases h1 : grantHeaderCheck (.obj aclf) "x-amz-grant-read" with
            | error e => simp [h1] at hdec
            | ok b1 =>
                rw [h1, grantHeaderCheck_marker _ _ _ hs hm] at hdec
                cases h3 : grantHeaderCheck (.obj aclf) "x-amz-grant-write" with
                | error e => simp [h1, h3] at hdec
                | ok b3 =>
                    rw [h3] at hdec
                    cases h4 : grantHeaderCheck (.obj aclf) "x-amz-grant-write-acp" with
                    | error e => simp [h4] at hdec
                    | ok b4 =>
                        rw [h4] at hdec
                        simp only [exbind_ok, expure_eq, Except.ok.injEq, Prod.mk.injEq] at hdec
                        have h5 := hdec.1
                        rw [Bool.or_true] at h5
                        exact h5.symm
    | str s2 => simp [Json.get?] at hacl
    | arr xs => simp [Json.get?] at hacl
    | null => simp [Json.get?] at hacl

/-- Witness for C4: a record whose only grant header is a
`x-amz-grant-read-acp` naming AllUsers yields decision `(true, false)`. -/
theorem c4_rule_a_grant_headers_witness :
    handleCreateDecision exRecHdrAcp = .ok (true, false) := by
  rw [(c4_rule_a_grant_headers exRecHdrAcp
      [("x-amz-grant-read-acp", .str "uri=http://acs.amazonaws.com/groups/global/AllUsers")]).1
      [("accessControlList",
        .obj [("x-amz-grant-read-acp",
          .str "uri=http://acs.amazonaws.com/groups/global/AllUsers")])]
      rfl rfl rfl (by decide) (by decide) (by decide) (by decide)]
  rfl

/-- A well-shaped grant is scanned without raising, and contributes exactly
its read/write classification, OR-ed onto the accumulator. -/
theorem grantStep_wf (g : Json) (s : Bool × Bool) (h : wfGrant g = true) :
    grantStep g s = .ok (s.1 || grantRead g, s.2 || grantWrite g) := by
  cases g with
  | obj fs =>
      cases hG : fs.lookup "Grantee" with
      | none =>
          simp [grantStep, pyInStr, hG, grantRead, grantWrite, granteeAllUsers, Json.get?]
      | some grantee =>
          cases grantee with
          | obj gfs =>
              cases hU : gfs.lookup "URI" with
              | none =>
                  simp [grantStep, pyInStr, hG, hU, Json.getE, grantRead, grantWrite,
                    granteeAllUsers, Json.get?]
              | some u =>
                  cases u with
                  | str uri =>
                      cases hm : strContains uri allUsersMarker with
                      | false =>
                          simp [grantStep, pyInStr, hG, hU, hm, Json.getE, grantRead,
                            grantWrite, granteeAllUsers, Json.get?]
                      | true =>
                          have hperm : (fs.lookup "Permission").isSome = true := by
                            simp only [wfGrant, Json.get?, hG, hU, hm, Bool.not_true,
                              Bool.false_or] at h
                            exact h
                          cases hp : fs.lookup "Permission" with
                          | none => rw [hp] at hperm; simp at hperm
                          | some p =>
                              by_cases h1 : p = Json.str "READ"
                              · subst h1
                                simp [grantStep, pyInStr, hG, hU, hm, hp, Json.getE, grantRead,
                                  grantWrite, granteeAllUsers, permIs, Json.get?, Json.eqStr]
                              by_cases h2 : p = Json.str "READ_ACP"
                              · subst h2
                                simp [grantStep, pyInStr, hG, hU, hm, hp, Json.getE, grantRead,
                                  grantWrite, granteeAllUsers, permIs, Json.get?, Json.eqStr]
                              by_cases h3 : p = Json.str "WRITE"
                              · subst h3
                                simp [grantStep, pyInStr, hG, hU, hm, hp, Json.getE, grantRead,
                                  grantWrite, granteeAllUsers, permIs, Json.get?, Json.eqStr]
                              by_cases h4 : p = Json.str "WRITE_ACP"
                              · subst h4
                                simp [grantStep, pyInStr, hG, hU, hm, hp, Json.getE, grantRead,
                                  grantWrite, granteeAllUsers, permIs, Json.get?, Json.eqStr]
                              simp [grantStep, pyInStr, hG, hU, hm, hp, Json.getE, grantRead,
                                grantWrite, granteeAllUsers, permIs, Json.get?, eqStr_false h1,
                                eqStr_false h2, eqStr_false h3, eqStr_false h4]
                  | arr xs => simp [wfGrant, Json.get?, hG, hU] at h
                  | obj o => simp [wfGrant, Json.get?, hG, hU] at h
                  | null => simp [wfGrant, Json.get?, hG, hU] at h
          | str s2 => simp [wfGrant, Json.get?, hG] at h
          | arr xs => simp [wfGrant, Json.get?, hG] at h
          | null => simp [wfGrant, Json.get?, hG] at h
  | str s2 => simp [wfGrant] at h
  | arr xs => simp [wfGrant] at h
  | null => simp [wfGrant] at h

/-- The grant loop over well-shaped grants computes the OR of the
per-grant contributions. -/
theorem grantScan_wf (l : List Json) (s : Bool × Bool)
    (h : ∀ g ∈ l, wfGrant g = true) :
    grantScan l s = .ok (s.1 || l.any grantRead, s.2 || l.any grantWrite) := by
  induction l generalizing s with
  | nil => simp [grantScan]
  | cons g t ih =>
      have hg := h g (List.mem_cons_self g t)
      have ht : ∀ x ∈ t, wfGrant x = true := fun x hx => h x (List.mem_cons_of_mem _ hx)
      simp [grantScan, grantStep_wf g s hg, ih _ ht, Bool.or_assoc]

/-- C2: for a Rule B record carrying an `AccessControlPolicy`, the decision
is the OR over all (normalized) grants: an AllUsers-URI grant contributes
read for `READ`/`READ_ACP` and write for `WRITE`/`WRITE_ACP`; all other
grants contribute nothing. -/
theorem c2_rule_b_grant_or (record : Json) (rpf : List (String × Json))
    (policy aclist grant : Json)
    (hrp : record.getE "requestParameters" = .ok (.obj rpf))
    (hpol : rpf.lookup "AccessControlPolicy" = some policy)
    (hacl : policy.get? "AccessControlList" = some aclist)
    (hg : aclist.get? "Grant" = some grant)
    (hwf : ∀ g ∈ asPyList grant, wfGrant g = true) :
    handleChangeDecision record =
      .ok ((asPyList grant).any grantRead, (asPyList grant).any grantWrite) := by
  have e1 : (Json.obj rpf).getE "AccessControlPolicy" = .ok policy := by
    simp [Json.getE, hpol]
  simp only [handleChangeDecision]
  rw [hrp]
  simp only [exbind_ok, pyInStr, hpol, Option.isSome_some, if_true]
  rw [e1]
  simp only [exbind_ok]
  rw [getE_of_get? hacl]
  simp only [exbind_ok]
  rw [getE_of_get? hg]
  simp only [exbind_ok]
  rw [grantScan_wf _ _ hwf]
  simp

/-- Witness for C2: the two-grant list — `READ` to AllUsers and `WRITE` to
a non-AllUsers principal — yields decision `(true, false)`. -/
theorem c2_rule_b_grant_or_witness :
    handleChangeDecision exRecTwoGrants = .ok (true, false) := by
  rw [c2_rule_b_grant_or exRecTwoGrants [("AccessControlPolicy", exPolicyTwo)]
      exPolicyTwo (.obj [("Grant", exGrantsTwo)]) exGrantsTwo
      rfl rfl rfl rfl (by decide)]
  rfl

/-- The resource scan over well-shaped entries returns the first
object-typed entry's ARN without raising. -/
theorem findArnLoop_wf (rs : List Json) (h : ∀ r ∈ rs, wfResource r = true) :
    findArnLoop rs = .ok (firstObjectArn rs) := by
  induction rs with
  | nil => simp [findArnLoop, firstObjectArn]
  | cons r t ih =>
      have hr := h r (List.mem_cons_self r t)
      have ht : ∀ x ∈ t, wfResource x = true := fun x hx => h x (List.mem_cons_of_mem _ hx)
      cases r with
      | obj fs =>
          cases hty : fs.lookup "type" with
          | none => simp [wfResource, Json.get?, hty] at hr
          | some ty =>
              cases he : ty.eqStr "AWS::S3::Object" with
              | false =>
                  simp [findArnLoop, Json.getE, hty, he, firstObjectArn, Json.get?, ih ht]
              | true =>
                  have harn : (fs.lookup "ARN").isSome = true := by
                    simp only [wfResource, Json.get?, hty, he, if_true] at hr
                    exact hr
                  cases ha : fs.lookup "ARN" with
                  | none => rw [ha] at harn; simp at harn
                  | some arn =>
                      simp [findArnLoop, Json.getE, hty, he, ha, firstObjectArn, Json.get?]
      | str s => simp [wfResource] at hr
      | arr xs => simp [wfResource] at hr
      | null => simp [wfResource] at hr

/-- C8: the resource description starts with `created` for creation
operations and `changed` for ACL changes, followed by the object ARN and
`at bucket <name>` when an object-typed resource is found (first match in
order), and by `bucket <name>` otherwise; the ARN lookup returns the first
object-typed entry and `None` when `resources` is absent. -/
theorem c8_resource_description (record : Json) (bucket arn : String) (rs : List Json) :
    (get_resource_access "CreateBucket" bucket (some arn) =
        "created " ++ arn ++ " at bucket " ++ bucket ∧
     get_resource_access "PutObject" bucket (some arn) =
        "created " ++ arn ++ " at bucket " ++ bucket ∧
     get_resource_access "CreateBucket" bucket none = "created bucket " ++ bucket ∧
     get_resource_access "PutObject" bucket none = "created bucket " ++ bucket ∧
     get_resource_access "PutBucketAcl" bucket (some arn) =
        "changed " ++ arn ++ " at bucket " ++ bucket ∧
     get_resource_access "PutObjectAcl" bucket (some arn) =
        "changed " ++ arn ++ " at bucket " ++ bucket ∧
     get_resource_access "PutBucketAcl" bucket none = "changed bucket " ++ bucket ∧
     get_resource_access "PutObjectAcl" bucket none = "changed bucket " ++ bucket) ∧
    (record.get? "resources" = some (.arr rs) → (∀ r ∈ rs, wfResource r = true) →
      get_object_arn record = .ok (firstObjectArn rs)) ∧
    (∀ fs, record = Json.obj fs → fs.lookup "resources" = none →
      get_object_arn record = .ok none) := by
  refine ⟨⟨?_, ?_, ?_, ?_, ?_, ?_, ?_, ?_⟩, ?_, ?_⟩
  · simp [get_resource_access, pyJoin, String.append_assoc]
    rw [← String.append_assoc " " "at bucket " bucket]
    simp
  · simp [get_resource_access, pyJoin, String.append_assoc]
    rw [← String.append_assoc " " "at bucket " bucket]
    simp
  · simp [get_resource_access, pyJoin, String.append_assoc]
    rw [← String.append_assoc "created " "bucket " bucket]
    simp
  · simp [get_resource_access, pyJoin, String.append_assoc]
    rw [← String.append_assoc "created " "bucket " bucket]
    simp
  · simp [get_resource_access, pyJoin, String.append_assoc]
    rw [← String.append_assoc " " "at bucket " bucket]
    simp
  · simp [get_resource_access, pyJoin, String.append_assoc]
    rw [← String.append_assoc " " "at bucket " bucket]
    simp
  · simp [get_resource_access, pyJoin, String.append_assoc]
    rw [← String.append_assoc "changed " "bucket " bucket]
    simp
  · simp [get_resource_access, pyJoin, String.append_assoc]
    rw [← String.append_assoc "changed " "bucket " bucket]
    simp
  · intro hres hwf
    cases record with
    | obj fs =>
        simp only [Json.get?] at hres
        simp [get_object_arn, pyInStr, hres, Json.getE, Json.asIter, findArnLoop_wf rs hwf]
    | str s => simp [Json.get?] at hres
    | arr xs => simp [Json.get?] at hres
    | null => simp [Json.get?] at hres
  · intro fs hrec hl
    subst hrec
    simp [get_object_arn, pyInStr, hl]

/-- Witness for C8: the two-entry resources list yields the object entry's
ARN (first object-typed match), and the composed description for an ACL
change on that object. -/
theorem c8_resource_description_witness :
    get_object_arn exRecResources = .ok (some (.str "arn:aws:s3:::b/key")) ∧
    get_resource_access "PutObjectAcl" "mybucket" (some "arn:aws:s3:::b/key") =
      "changed arn:aws:s3:::b/key at bucket mybucket" := by
  constructor
  · rw [(c8_resource_description exRecResources "mybucket" "a"
        [.obj [("type", .str "AWS::S3::Bucket"), ("ARN", .str "arn:aws:s3:::b")],
         .obj [("type", .str "AWS::S3::Object"), ("ARN", .str "arn:aws:s3:::b/key")]]).2.1
        rfl (by decide)]
    rfl
  · rw [(c8_resource_description exRecResources "mybucket" "arn:aws:s3:::b/key" []).1.2.2.2.2.2.1]
    rfl

/-- Counterexample for C1: a grant carrying an AllUsers URI but no
`Permission` field makes the classifier raise a `KeyError` rather than
skip the check. -/
theorem c1_counterexample :
    handle_change exRecNoPerm "PutBucketAcl" = .error "KeyError: Permission" ∧
    ¬ ∃ alerts, handle_change exRecNoPerm "PutBucketAcl" = .ok alerts := by
  constructor
  · rfl
  · rintro ⟨alerts, h⟩
    rw [show handle_change exRecNoPerm "PutBucketAcl" = .error "KeyError: Permission" from rfl]
      at h
    exact Except.noConfusion h

/-- The invoke form is fully determined by the record's user agent. -/
theorem get_invoke_form_eq (record ua : Json)
    (h : record.getE "userAgent" = .ok ua) :
    get_invoke_form record =
      .ok (if ua.eqStr "signin.amazonaws.com" || ua.eqStr "console.amazonaws.com" then "Console"
           else if ua.eqStr "lambda.amazonaws.com" then "Lambda"
           else "API") := by
  simp only [get_invoke_form]
  rw [h]
  simp only [exbind_ok]
  cases hc : (ua.eqStr "signin.amazonaws.com" || ua.eqStr "console.amazonaws.com") <;>
    cases hl : ua.eqStr "lambda.amazonaws.com" <;> simp [hc, hl]

/-- C1 (amended): only the absences the source explicitly guards are
skipped — missing canned-ACL field, a missing single grant-header field, a
grant without `Grantee`, a `Grantee` without `URI`, missing
`AccessControlPolicy`, missing `resources` — while the unguarded
subscripts raise: a missing `Permission` on an AllUsers grant, a policy
without `AccessControlList`, an `AccessControlList` without `Grant`, and on
the alert path a missing `userIdentity`, a `userIdentity` without
`userName`, a missing `userAgent`, and `requestParameters` without
`bucketName`. -/
theorem c1_missing_fields_amended (record : Json) (fs : List (String × Json))
    (hrec : record = Json.obj fs) :
    (∀ rpf, fs.lookup "requestParameters" = some (.obj rpf) →
      (rpf.lookup "x-amz-acl" = none → rpf.lookup "accessControlList" = none →
        handleCreateDecision record = .ok (false, false)) ∧
      (rpf.lookup "AccessControlPolicy" = none →
        handleChangeDecision record = .ok (false, false)) ∧
      (∀ pfs, rpf.lookup "AccessControlPolicy" = some (.obj pfs) →
        pfs.lookup "AccessControlList" = none →
        handleChangeDecision record = .error "KeyError: AccessControlList") ∧
      (∀ pfs afs, rpf.lookup "AccessControlPolicy" = some (.obj pfs) →
        pfs.lookup "AccessControlList" = some (.obj afs) →
        afs.lookup "Grant" = none →
        handleChangeDecision record = .error "KeyError: Grant")) ∧
    (∀ g s, granteeAllUsers g = true → g.get? "Permission" = none →
      grantStep g s = .error "KeyError: Permission") ∧
    (∀ aclf hdr, List.lookup hdr aclf = none →
      grantHeaderCheck (Json.obj aclf) hdr = .ok false) ∧
    (∀ gfs s, List.lookup "Grantee" gfs = none →
      grantStep (Json.obj gfs) s = .ok s) ∧
    (∀ gfs gfs2 s, List.lookup "Grantee" gfs = some (.obj gfs2) →
      List.lookup "URI" gfs2 = none → grantStep (Json.obj gfs) s = .ok s) ∧
    (fs.lookup "userIdentity" = none →
      ∀ en pw pr, publish_alert_message record en pw pr = .error "KeyError: userIdentity") ∧
    (∀ uif, fs.lookup "userIdentity" = some (.obj uif) →
      uif.lookup "userName" = none →
      ∀ en pw pr, publish_alert_message record en pw pr = .error "KeyError: userName") ∧
    (∀ uif un, fs.lookup "userIdentity" = some (.obj uif) →
      uif.lookup "userName" = some un → fs.lookup "userAgent" = none →
      ∀ en pw pr, publish_alert_message record en pw pr = .error "KeyError: userAgent") ∧
    (∀ uif un ua rpf, fs.lookup "userIdentity" = some (.obj uif) →
      uif.lookup "userName" = some un → fs.lookup "userAgent" = some ua →
      fs.lookup "requestParameters" = some (.obj rpf) → rpf.lookup "bucketName" = none →
      ∀ en pw pr, publish_alert_message record en pw pr = .error "KeyError: bucketName") ∧
    (fs.lookup "resources" = none → get_object_arn record = .ok none) := by
  subst hrec
  refine ⟨?_, ?_, ?_, ?_, ?_, ?_, ?_, ?_, ?_, ?_⟩
  · intro rpf hrp
    refine ⟨?_, ?_, ?_, ?_⟩
    · intro h1 h2
      simp [handleCreateDecision, Json.getE, hrp, pyInStr, h1, h2]
    · intro h1
      simp [handleChangeDecision, Json.getE, hrp, pyInStr, h1]
    · intro pfs h1 h2
      simp [handleChangeDecision, Json.getE, hrp, pyInStr, h1, h2]
    · intro pfs afs h1 h2 h3
      simp [handleChangeDecision, Json.getE, hrp, pyInStr, h1, h2, h3]
  · intro g s hga hp
    cases g with
    | obj gfs0 =>
        simp only [Json.get?] at hp
        cases hG : gfs0.lookup "Grantee" with
        | none => simp [granteeAllUsers, Json.get?, hG] at hga
        | some grantee =>
            cases grantee with
            | obj gfs =>
                cases hU : gfs.lookup "URI" with
                | none => simp [granteeAllUsers, Json.get?, hG, hU] at hga
                | some u =>
                    cases u with
                    | str uri =>
                        have hm : strContains uri allUsersMarker = true := by
                          simp only [granteeAllUsers, Json.get?, hG, hU] at hga
                          exact hga
                        simp [grantStep, pyInStr, hG, hU, hm, hp, Json.getE]
                    | arr xs => simp [granteeAllUsers, Json.get?, hG, hU] at hga
                    | obj o => simp [granteeAllUsers, Json.get?, hG, hU] at hga
                    | null => simp [granteeAllUsers, Json.get?, hG, hU] at hga
            | str s2 => simp [granteeAllUsers, Json.get?, hG] at hga
            | arr xs => simp [granteeAllUsers, Json.get?, hG] at hga
            | null => simp [granteeAllUsers, Json.get?, hG] at hga
    | str s2 => simp [granteeAllUsers, Json.get?] at hga
    | arr xs => simp [granteeAllUsers, Json.get?] at hga
    | null => simp [granteeAllUsers, Json.get?] at hga
  · intro aclf hdr hl
    simp [grantHeaderCheck, pyInStr, hl]
  · intro gfs s hl
    simp [grantStep, pyInStr, hl]
  · intro gfs gfs2 s h1 h2
    simp [grantStep, pyInStr, Json.getE, h1, h2]
  · intro hui en pw pr
    simp [publish_alert_message, Json.getE, hui]
  · intro uif h1 h2 en pw pr
    simp [publish_alert_message, Json.getE, h1, h2]
  · intro uif un h1 h2 h3 en pw pr
    simp [publish_alert_message, get_invoke_form, Json.getE, h1, h2, h3]
  · intro uif un ua rpf h1 h2 h3 h4 h5 en pw pr
    have e1 : (Json.obj fs).getE "userIdentity" = .ok (.obj uif) := by
      simp [Json.getE, h1]
    have e2 : (Json.obj uif).getE "userName" = .ok un := by
      simp [Json.getE, h2]
    have e3 : (Json.obj fs).getE "userAgent" = .ok ua := by
      simp [Json.getE, h3]
    have e4 : (Json.obj fs).getE "requestParameters" = .ok (.obj rpf) := by
      simp [Json.getE, h4]
    have e5 : (Json.obj rpf).getE "bucketName" = Except.error "KeyError: bucketName" := by
      simp [Json.getE, h5]
    simp only [publish_alert_message]
    rw [e1]
    simp only [exbind_ok]
    rw [e2]
    simp only [exbind_ok]
    rw [get_invoke_form_eq (Json.obj fs) ua e3]
    simp only [exbind_ok]
    rw [e4]
    simp only [exbind_ok]
    rw [e5]
    simp
  · intro hres
    simp [get_object_arn, pyInStr, hres]

/-- Witness for the amended C1: a record with an empty `requestParameters`
mapping classifies to `(false, false)` under both rules without raising; a
grant without a `Grantee` is skipped; a present `userIdentity` without a
`userName` raises the key-lookup error on the alert path. -/
theorem c1_missing_fields_amended_witness :
    handleCreateDecision exRecEmptyRP = .ok (false, false) ∧
    handleChangeDecision exRecEmptyRP = .ok (false, false) ∧
    grantStep (Json.obj [("Permission", Json.str "READ")]) (false, false) = .ok (false, false) ∧
    publish_alert_message (Json.obj [("userIdentity", Json.obj [])]) "PutObject" false true =
      .error "KeyError: userName" := by
  have h := c1_missing_fields_amended exRecEmptyRP [("requestParameters", .obj [])] rfl
  have h2 := c1_missing_fields_amended (Json.obj [("userIdentity", Json.obj [])])
      [("userIdentity", Json.obj [])] rfl
  refine ⟨(h.1 [] rfl).1 rfl rfl, (h.1 [] rfl).2.1 rfl, ?_, ?_⟩
  · exact h.2.2.2.1 [("Permission", Json.str "READ")] (false, false) rfl
  · exact h2.2.2.2.2.2.2.1 [] rfl rfl "PutObject" false true

/-- Counterexample for C6: a record whose `requestParameters` key is
present but `null` (so "empty") is not skipped — it is routed to the
classifier, which raises a `TypeError`. -/
theorem c6_counterexample :
    dispatchRecord exRecNullRP = .error "TypeError: argument of type NoneType is not iterable" ∧
    ¬ dispatchRecord exRecNullRP = .ok [] := by
  constructor
  · rfl
  · intro h
    rw [show dispatchRecord exRecNullRP =
        .error "TypeError: argument of type NoneType is not iterable" from rfl] at h
    exact Except.noConfusion h

set_option maxRecDepth 4096

/-- C6 (amended): a record is routed iff its event source equals
`s3.amazonaws.com` and its `requestParameters` *key is present* (whatever
its value): `CreateBucket`/`PutObject` go to Rule A, `PutBucketAcl`/
`PutObjectAcl` to Rule B, every other event name or source is skipped with
no side effect, and an alert is forwarded iff the decision has a true
flag. -/
theorem c6_dispatch_routing_amended (record es : Json)
    (hes : record.getE "eventSource" = .ok es) :
    (es.eqStr "s3.amazonaws.com" = false → dispatchRecord record = .ok []) ∧
    (record.get? "requestParameters" = none → dispatchRecord record = .ok []) ∧
    (∀ rp en, record.get? "requestParameters" = some rp →
      record.getE "eventName" = .ok en → es.eqStr "s3.amazonaws.com" = true →
      ((en = .str "CreateBucket" → dispatchRecord record = handle_create record "CreateBucket") ∧
       (en = .str "PutObject" → dispatchRecord record = handle_create record "PutObject") ∧
       (en = .str "PutBucketAcl" → dispatchRecord record = handle_change record "PutBucketAcl") ∧
       (en = .str "PutObjectAcl" → dispatchRecord record = handle_change record "PutObjectAcl") ∧
       (en ≠ .str "CreateBucket" → en ≠ .str "PutObject" → en ≠ .str "PutBucketAcl" →
        en ≠ .str "PutObjectAcl" → dispatchRecord record = .ok []))) ∧
    (∀ en pr pw, handleCreateDecision record = .ok (pr, pw) →
      ((pr || pw) = false → handle_create record en = .ok []) ∧
      ((pr || pw) = true →
        handle_create record en = (publish_alert_message record en pw pr).map (fun m => [m]))) ∧
    (∀ en pr pw, handleChangeDecision record = .ok (pr, pw) →
      ((pr || pw) = false → handle_change record en = .ok []) ∧
      ((pr || pw) = true →
        handle_change record en = (publish_alert_message record en pw pr).map (fun m => [m]))) := by
  obtain ⟨fs, rfl⟩ := obj_of_getE hes
  refine ⟨?_, ?_, ?_, ?_, ?_⟩
  · intro hno
    simp only [dispatchRecord]
    rw [hes]
    simp [hno]
  · intro hnone
    simp only [Json.get?] at hnone
    simp only [dispatchRecord]
    rw [hes]
    cases hsv : es.eqStr "s3.amazonaws.com" with
    | false => simp [hsv]
    | true => simp [hsv, pyInStr, hnone]
  · intro rp en hrp hen hsv
    simp only [Json.get?] at hrp
    refine ⟨?_, ?_, ?_, ?_, ?_⟩
    · intro h1
      subst h1
      simp only [dispatchRecord]
      rw [hes]
      simp only [exbind_ok]
      rw [if_pos hsv]
      simp only [pyInStr, hrp, Option.isSome_some, exbind_ok]
      rw [if_pos trivial, hen]
      simp
    · intro h1
      subst h1
      simp only [dispatchRecord]
      rw [hes]
      simp only [exbind_ok]
      rw [if_pos hsv]
      simp only [pyInStr, hrp, Option.isSome_some, exbind_ok]
      rw [if_pos trivial, hen]
      simp
    · intro h1
      subst h1
      simp only [dispatchRecord]
      rw [hes]
      simp only [exbind_ok]
      rw [if_pos hsv]
      simp only [pyInStr, hrp, Option.isSome_some, exbind_ok]
      rw [if_pos trivial, hen]
      simp
    · intro h1
      subst h1
      simp only [dispatchRecord]
      rw [hes]
      simp only [exbind_ok]
      rw [if_pos hsv]
      simp only [pyInStr, hrp, Option.isSome_some, exbind_ok]
      rw [if_pos trivial, hen]
      simp
    · intro h1 h2 h3 h4
      simp only [dispatchRecord]
      rw [hes]
      simp only [exbind_ok]
      rw [if_pos hsv]
      simp only [pyInStr, hrp, Option.isSome_some, exbind_ok]
      rw [if_pos trivial, hen]
      simp only [exbind_ok]
      cases en with
      | str s =>
          have n1 : (s == "CreateBucket") = false := by
            refine beq_eq_false_iff_ne.mpr ?_
            intro hh; exact h1 (by rw [hh])
          have n2 : (s == "PutObject") = false := by
            refine beq_eq_false_iff_ne.mpr ?_
            intro hh; exact h2 (by rw [hh])
          have n3 : (s == "PutBucketAcl") = false := by
            refine beq_eq_false_iff_ne.mpr ?_
            intro hh; exact h3 (by rw [hh])
          have n4 : (s == "PutObjectAcl") = false := by
            refine beq_eq_false_iff_ne.mpr ?_
            intro hh; exact h4 (by rw [hh])
          simp [n1, n2, n3, n4]
      | arr xs => simp
      | obj o => simp
      | null => simp
  · intro en pr pw hdec
    constructor
    · intro hfl
      obtain ⟨h5, h6⟩ : pr = false ∧ pw = false := by simpa using hfl
      simp [handle_create, hdec, h5, h6]
    · intro hfl
      simp only [handle_create]
      rw [hdec]
      simp only [exbind_ok, hfl, if_true]
      cases hpm : publish_alert_message (Json.obj fs) en pw pr <;> simp [hpm]
  · intro en pr pw hdec
    constructor
    · intro hfl
      obtain ⟨h5, h6⟩ : pr = false ∧ pw = false := by simpa using hfl
      simp [handle_change, hdec, h5, h6]
    · intro hfl
      simp only [handle_change]
      rw [hdec]
      simp only [exbind_ok, hfl, if_true]
      cases hpm : publish_alert_message (Json.obj fs) en pw pr <;> simp [hpm]

/-- Witness for the amended C6: the complete `PutBucketAcl` record is
routed to Rule B, and an unhandled event name is skipped. -/
theorem c6_dispatch_routing_amended_witness :
    dispatchRecord exRecAcl = handle_change exRecAcl "PutBucketAcl" ∧
    dispatchRecord exRecSkip = .ok [] := by
  constructor
  · exact ((c6_dispatch_routing_amended exRecAcl (.str "s3.amazonaws.com") rfl).2.2.1
      exRPAcl (.str "PutBucketAcl") rfl rfl rfl).2.2.1 rfl
  · exact ((c6_dispatch_routing_amended exRecSkip (.str "s3.amazonaws.com") rfl).2.2.1
      (Json.obj []) (.str "GetObject") rfl rfl rfl).2.2.2.2
      (by simp) (by simp) (by simp) (by simp)

/-- The notification loop leaves the reference of the *last* item: when it
returns successfully on a non-empty sequence, the accumulator holds
exactly the bucket/key fields of the last item. -/
theorem refLoop_last (items : List Json) (acc res : Option (Json × Json))
    (h : refLoop items acc = .ok res) :
    (items = [] ∧ res = acc) ∨
    (∃ last b k, items.getLast? = some last ∧ res = some (b, k) ∧
      itemRefSpec last = some (b, k)) := by
  induction items generalizing acc with
  | nil =>
      left
      simp only [refLoop, Except.ok.injEq] at h
      exact ⟨rfl, h.symm⟩
  | cons it t ih =>
      right
      simp only [refLoop] at h
      cases h1 : it.getE "s3" with
      | error e => rw [h1] at h; simp at h
      | ok s3a =>
          rw [h1] at h
          simp only [exbind_ok] at h
          cases h2 : s3a.getE "bucket" with
          | error e => rw [h2] at h; simp at h
          | ok bobj =>
              rw [h2] at h
              simp only [exbind_ok] at h
              cases h3 : bobj.getE "name" with
              | error e => rw [h3] at h; simp at h
              | ok b =>
                  rw [h3] at h
                  simp only [exbind_ok] at h
                  cases h4 : s3a.getE "object" with
                  | error e => rw [h4] at h; simp at h
                  | ok oobj =>
                      rw [h4] at h
                      simp only [exbind_ok] at h
                      cases h5 : oobj.getE "key" with
                      | error e => rw [h5] at h; simp at h
                      | ok k =>
                          rw [h5] at h
                          simp only [exbind_ok] at h
                          rcases ih _ h with ⟨htnil, hres⟩ | ⟨last, b', k', hlast, hres, hspec⟩
                          · subst htnil
                            refine ⟨it, b, k, by simp, hres, ?_⟩
                            simp [itemRefSpec, get?_of_getE h1, get?_of_getE h2,
                              get?_of_getE h3, get?_of_getE h4, get?_of_getE h5]
                          · refine ⟨last, b', k', ?_, hres, hspec⟩
                            cases t with
                            | nil => simp at hlast
                            | cons x xs => rw [List.getLast?_cons_cons]; exact hlast

/-- C5: when the reference extraction succeeds, the handler fetches exactly
one log object — the one named by the *last* item of the outer `Records`
sequence — and its alerts are exactly the result of processing every
record of that single fetched log. -/
theorem c5_last_record_fetch (fetch : String → String → Json) (event : Json) (b k : String)
    (h : extractLastRef event = .ok (b, k)) :
    lambda_handler fetch event =
      (processTrail (fetch b k)).map (fun alerts => ⟨[(b, k)], alerts⟩) ∧
    (∀ items, event.getE "Records" = .ok (.arr items) →
      ∃ last, items.getLast? = some last ∧ itemRefSpec last = some (.str b, .str k)) := by
  constructor
  · simp only [lambda_handler]
    rw [h]
    simp only [exbind_ok]
    cases hp : processTrail (fetch b k) <;> simp [hp]
  · intro items hrec
    simp only [extractLastRef] at h
    rw [hrec] at h
    simp only [exbind_ok, Json.asIter] at h
    cases hacc : refLoop items none with
    | error e => rw [hacc] at h; simp at h
    | ok acc =>
        rw [hacc] at h
        simp only [exbind_ok] at h
        cases acc with
        | none => simp at h
        | some bk =>
            obtain ⟨bj, kj⟩ := bk
            simp only at h
            cases hbs : bj.asStr with
            | error e => rw [hbs] at h; simp at h
            | ok bs =>
                rw [hbs] at h
                simp only [exbind_ok] at h
                cases hks : kj.asStr with
                | error e => rw [hks] at h; simp at h
                | ok ks =>
                    rw [hks] at h
                    simp only [exbind_ok, expure_eq, Except.ok.injEq, Prod.mk.injEq] at h
                    obtain ⟨hb, hk⟩ := h
                    have hbj : bj = .str b := by
                      cases bj with
                      | str s =>
                          simp only [Json.asStr, Except.ok.injEq] at hbs
                          rw [hbs, hb]
                      | arr xs => simp [Json.asStr] at hbs
                      | obj o => simp [Json.asStr] at hbs
                      | null => simp [Json.asStr] at hbs
                    have hkj : kj = .str k := by
                      cases kj with
                      | str s =>
                          simp only [Json.asStr, Except.ok.injEq] at hks
                          rw [hks, hk]
                      | arr xs => simp [Json.asStr] at hks
                      | obj o => simp [Json.asStr] at hks
                      | null => simp [Json.asStr] at hks
                    rcases refLoop_last items none _ hacc with ⟨_, hres⟩ |
                      ⟨last, b', k', hlast, hres, hspec⟩
                    · exact absurd hres (by simp)
                    · refine ⟨last, hlast, ?_⟩
                      rw [hspec]
                      obtain ⟨hb', hk'⟩ : b' = bj ∧ k' = kj := by
                        have := hres
                        simp only [Option.some.injEq, Prod.mk.injEq] at this
                        exact ⟨this.1.symm, this.2.symm⟩
                      rw [hb', hk', hbj, hkj]

/-- Witness for C5: with a two-item notification, only the second item's
log reference is fetched and its single public-ACL record produces the
alert. -/
theorem c5_last_record_fetch_witness :
    lambda_handler exFetch exNotifTwo =
      .ok ⟨[("logbucket2", "key2")],
        ["User alice via Console call has just changed bucket mybucket with READ public access"]⟩ := by
  rw [(c5_last_record_fetch exFetch exNotifTwo "logbucket2" "key2" rfl).1]
  rfl

/-- C10: an empty outer `Records` sequence makes the handler fail with the
unbound-variable error (the loop variables are assigned only inside the
loop), and a missing `Records` key fails with a key-lookup error; in both
cases no log object is fetched — the outcome does not depend on the fetch
collaborator at all. -/
theorem c10_empty_records_failure (fetch fetch2 : String → String → Json) (event : Json) :
    (event.getE "Records" = .ok (.arr []) →
      lambda_handler fetch event = .error "NameError: name bucket is not defined" ∧
      lambda_handler fetch event = lambda_handler fetch2 event) ∧
    (∀ fs, event = Json.obj fs → fs.lookup "Records" = none →
      lambda_handler fetch event = .error "KeyError: Records" ∧
      lambda_handler fetch event = lambda_handler fetch2 event) := by
  constructor
  · intro h
    have key : ∀ f : String → String → Json,
        lambda_handler f event = .error "NameError: name bucket is not defined" := by
      intro f
      simp [lambda_handler, extractLastRef, h, Json.asIter, refLoop]
    exact ⟨key fetch, by rw [key fetch, key fetch2]⟩
  · intro fs hrec hl
    subst hrec
    have key : ∀ f : String → String → Json,
        lambda_handler f (Json.obj fs) = .error "KeyError: Records" := by
      intro f
      simp [lambda_handler, extractLastRef, Json.getE, hl]
    exact ⟨key fetch, by rw [key fetch, key fetch2]⟩

/-- Witness for C10: the empty-sequence and missing-key events at concrete
inputs. -/
theorem c10_empty_records_failure_witness :
    lambda_handler (fun _ _ => Json.null) (Json.obj [("Records", Json.arr [])]) =
      .error "NameError: name bucket is not defined" ∧
    lambda_handler (fun _ _ => Json.null) (Json.obj []) = .error "KeyError: Records" := by
  constructor
  · exact ((c10_empty_records_failure (fun _ _ => Json.null) (fun _ _ => exTrail)
      (Json.obj [("Records", Json.arr [])])).1 rfl).1
  · exact ((c10_empty_records_failure (fun _ _ => Json.null) (fun _ _ => exTrail)
      (Json.obj [])).2 [] rfl rfl).1
